import Mathlib

/-!
Verification of the audio recording engine of the dsa-learning-app repository
(`src-tauri/src/commands/audio.rs`).

The development shallowly embeds the audio subsystem:

* the per-sample numeric conversions of the real-time capture callback
  (`start_recording_stream`), with `f32` samples modelled exactly as rationals
  and Rust integer casts modelled with explicit truncation / wrap arithmetic;
* the buffer processing of the callback (mono pass-through and interleaved
  multi-channel downmix over complete frames);
* the shared pause/resume state consulted by the callback, as a step function
  over traces of callback invocations interleaved with state flips;
* the dedicated audio thread (`audio_recording_thread`), as a state machine
  over an explicit thread state, with the hardware-dependent outcomes of
  `cpal` calls (stream construction, device enumeration) supplied as inputs;
* the command-layer session bookkeeping (`get_recording_state`,
  `stop_recording`) over an explicit clock value `now`.

Locks that the Rust code takes with `try_lock` are modelled as always
succeeding: events are serialized in the trace, so there is no contention.
-/

namespace Audio

/-! ## Numeric sample conversions (audio.rs lines 321-337, 360-373, 395-411) -/

/-- Truncation of a rational toward zero; this is the rounding Rust uses when
casting a float to an integer type. -/
def truncQ (x : ℚ) : ℤ := x.num.tdiv x.den

/-- Model of Rust `f32::clamp(-1.0, 1.0)` (audio.rs line 323 and 332). -/
def clampQ (x : ℚ) : ℚ := max (-1) (min 1 x)

/-- Model of Rust `as i16` applied to an `f32` value: the cast saturates at the
bounds of `i16` and truncates toward zero. -/
def f32AsI16Sat (x : ℚ) : ℤ := max (-32768) (min 32767 (truncQ x))

/-- Model of Rust `as i16` applied to an `i32` value: the cast keeps the low
16 bits, reinterpreted as a signed value (wrapping conversion). -/
def i32AsI16 (z : ℤ) : ℤ := ((z + 32768) % 65536) - 32768

/-- The f32-to-i16 sample conversion of the capture callback (audio.rs line
323): `(sample.clamp(-1.0, 1.0) * i16::MAX as f32) as i16`, with
`i16::MAX = 32767`.  The same conversion is applied to the per-frame average
in the downmix branch (audio.rs line 332-333). -/
def f32ToI16 (sample : ℚ) : ℤ := f32AsI16Sat (clampQ sample * 32767)

/-- The u16-to-i16 sample conversion of the capture callback (audio.rs line
397): `(sample as i32 - 32768) as i16`. -/
def u16SampleToI16 (sample : ℕ) : ℤ := i32AsI16 ((sample : ℤ) - 32768)

/-! ## Buffer processing of the capture callback

The downmix loop (audio.rs lines 328-336) advances an index by `in_ch` while
`i + in_ch <= data.len()`, so it consumes the buffer in complete frames of
`in_ch` interleaved samples and drops a trailing incomplete frame.
`chunkFramesAux` mirrors that loop; the fuel argument is only a structural
recursion bound and `data.length` steps always suffice. -/

def chunkFramesAux {α : Type} (inCh : ℕ) : ℕ → List α → List (List α)
  | 0, _ => []
  | fuel + 1, data =>
    if inCh ≤ data.length then
      data.take inCh :: chunkFramesAux inCh fuel (data.drop inCh)
    else []

/-- The complete `inCh`-sample frames of an interleaved buffer, in order. -/
def chunkFrames {α : Type} (inCh : ℕ) (data : List α) : List (List α) :=
  chunkFramesAux inCh data.length data

/-- The f32 branch of the capture callback (audio.rs lines 321-337): mono
input is converted sample by sample; multi-channel input is cut into complete
frames, each frame is summed, divided by the channel count, clamped, scaled
and truncated. -/
def processBufferF32 (inCh : ℕ) (data : List ℚ) : List ℤ :=
  if inCh ≤ 1 then
    data.map f32ToI16
  else
    (chunkFrames inCh data).map (fun frame => f32ToI16 (frame.sum / (inCh : ℚ)))

/-- The i16 branch of the capture callback (audio.rs lines 360-373): mono
input is written unchanged; multi-channel frames are summed in `i32` and
divided by the channel count with Rust `i32` division (truncation toward
zero). -/
def processBufferI16 (inCh : ℕ) (data : List ℤ) : List ℤ :=
  if inCh ≤ 1 then
    data
  else
    (chunkFrames inCh data).map (fun frame => frame.sum.tdiv (inCh : ℤ))

/-- The u16 branch of the capture callback (audio.rs lines 395-411): each
sample has the midpoint bias 32768 subtracted in `i32`; multi-channel frames
average the biased values with Rust `i32` division and cast the result to
`i16`. -/
def processBufferU16 (inCh : ℕ) (data : List ℕ) : List ℤ :=
  if inCh ≤ 1 then
    data.map u16SampleToI16
  else
    (chunkFrames inCh data).map
      (fun frame => i32AsI16 ((frame.map (fun s => (s : ℤ) - 32768)).sum.tdiv (inCh : ℤ)))

/-- Arithmetic mean of a frame, as the specification words it. -/
def meanQ (frame : List ℚ) : ℚ := frame.sum / (frame.length : ℚ)

/-! ## The shared recording state and the callback/command trace of a session
(audio.rs lines 20-25, 150-165, 315-343) -/

/-- The `AudioStreamState` enum of audio.rs lines 21-25, shared between the
audio thread and the capture callback. -/
inductive AudioStreamState where
  | recording
  | paused
  | stopped
  deriving DecidableEq, Repr

/-- One event observed by an active session: either the platform audio layer
invokes the capture callback with a buffer, or the audio thread processes a
`PauseRecording` / `ResumeRecording` command and flips the shared state. -/
inductive CallbackEvent where
  | buffer (data : List ℚ)
  | pauseCmd
  | resumeCmd

/-- Effect of one event on the pair (shared `AudioStreamState`, samples written
to the WAV writer so far).  The callback appends the processed buffer only
when the shared state reads `Recording` (audio.rs lines 317-342); the
`PauseRecording` / `ResumeRecording` arms of the thread set the shared state
(audio.rs lines 150-165). -/
def sessionStep (inCh : ℕ) (st : AudioStreamState × List ℤ) (e : CallbackEvent) :
    AudioStreamState × List ℤ :=
  match e with
  | .buffer data =>
    match st.1 with
    | .recording => (st.1, st.2 ++ processBufferF32 inCh data)
    | _ => st
  | .pauseCmd => (.paused, st.2)
  | .resumeCmd => (.recording, st.2)

/-- Run a whole session: `StartRecording` creates the shared state as
`Recording` with an empty WAV writer (audio.rs line 299), then the events are
applied in order. -/
def runSession (inCh : ℕ) (events : List CallbackEvent) : AudioStreamState × List ℤ :=
  events.foldl (sessionStep inCh) (.recording, [])

/-- Samples held by the finalized WAV file after `StopRecording` drops the
stream and finalizes the writer (audio.rs lines 133-148). -/
def finalizeFile (st : AudioStreamState × List ℤ) : List ℤ := st.2

/-! ## The dedicated audio thread (audio.rs lines 74-258) -/

/-- The `AudioCommand` enum of models.rs lines 10-23. -/
inductive AudioCommand where
  | startRecording (filepath : String) (sample_rate : ℕ) (channels : ℕ)
  | stopRecording
  | pauseRecording
  | resumeRecording
  | refreshDevices
  | switchDevice (device_name : String)
  deriving DecidableEq, Repr

/-- The `AudioDevice` struct of models.rs lines 27-31. -/
structure AudioDevice where
  name : String
  is_default : Bool
  is_current : Bool
  deriving DecidableEq, Repr

/-- The `AudioResponse` enum of audio.rs lines 32-40. -/
inductive AudioResponse where
  | started
  | stopped
  | paused
  | resumed
  | devicesRefreshed (devices : List AudioDevice)
  | deviceSwitched (name : String)
  | error (message : String)
  deriving DecidableEq, Repr

/-- The cpal host as the thread observes it during one enumeration: the list
of input device names (`none` models an enumeration error) and the name of
the default input device, if any.  Devices are identified by display name
throughout audio.rs. -/
structure Host where
  inputDevices : Option (List String)
  defaultDevice : Option String
  deriving DecidableEq, Repr

/-- Model of `refresh_available_devices` (audio.rs lines 188-242).  Returns
the rebuilt registry (the registry is cleared first, so it is empty when
enumeration itself fails) together with either an error message or the
resolved (current device, current device name) pair.  The cpal error text
interpolated into the enumeration failure message is not modelled. -/
def refresh_available_devices (host : Host) (current : Option String)
    (currentName : String) : List String × Except String (Option String × String) :=
  match host.inputDevices with
  | none => ([], .error "Failed to enumerate input devices")
  | some devs =>
    let defaultName : String :=
      match host.defaultDevice with
      | some d => if d ∈ devs then d else ""
      | none => ""
    match current with
    | none =>
      match host.defaultDevice with
      | some d => (devs, .ok (some d, defaultName))
      | none => (devs, .error "No input devices available")
    | some cur =>
      if currentName ∈ devs then
        (devs, .ok (some cur, currentName))
      else
        match host.defaultDevice with
        | some d => (devs, .ok (some d, defaultName))
        | none => (devs, .error "Current device unavailable and no default device found")

/-- Model of `create_device_list` (audio.rs lines 245-258): one `AudioDevice`
entry per registry entry, flagged against the freshly queried default device
name and the current device name. -/
def create_device_list (registry : List String) (currentName : String) (host : Host) :
    List AudioDevice :=
  let defaultName := host.defaultDevice.getD "Unknown"
  registry.map (fun n => { name := n, is_default := n == defaultName, is_current := n == currentName })

/-- The mutable state of `audio_recording_thread` (audio.rs lines 78-86).
The stream and writer handles carry no data the claims depend on, so only
their presence is tracked. -/
structure ThreadState where
  currentStream : Option Unit
  currentWriter : Option Unit
  currentState : Option AudioStreamState
  availableDevices : List String
  currentDevice : Option String
  currentDeviceName : String
  deriving DecidableEq, Repr

/-- Hardware-dependent outcomes of the cpal calls that one command processing
step may perform: the host state seen by a device refresh, and the results of
the first and second `start_recording_stream` attempt. -/
structure StepEnv where
  host : Host
  attempt1 : Except String Unit
  attempt2 : Except String Unit
  deriving Repr

/-- Marks a freshly started session in the thread state (audio.rs lines
100-104 and 111-115). -/
def sessionStarted (s : ThreadState) : ThreadState :=
  { s with currentStream := some (), currentWriter := some (),
           currentState := some AudioStreamState.recording }

/-- One iteration of the command loop of `audio_recording_thread` (audio.rs
lines 95-184): the dequeued command is processed and the statuses sent on the
response channel are returned alongside the new thread state. -/
def stepThread (env : StepEnv) (s : ThreadState) :
    AudioCommand → ThreadState × List AudioResponse
  | .startRecording _ _ _ =>
    match s.currentDevice with
    | some _ =>
      match env.attempt1 with
      | .ok _ => (sessionStarted s, [.started])
      | .error e =>
        match refresh_available_devices env.host s.currentDevice s.currentDeviceName with
        | (reg, .ok (cur, nm)) =>
          let s2 := { s with availableDevices := reg, currentDevice := cur,
                             currentDeviceName := nm }
          match cur with
          | some _ =>
            match env.attempt2 with
            | .ok _ => (sessionStarted s2, [.started])
            | .error e2 =>
              (s2, [.error ("Audio start failed: " ++ e ++ " (retry: " ++ e2 ++ ")")])
          | none => (s2, [.error ("No audio device available after refresh: " ++ e)])
        | (reg, .error _) =>
          ({ s with availableDevices := reg }, [.error ("Audio start failed: " ++ e)])
    | none => (s, [.error "No audio device available"])
  | .stopRecording =>
    ({ s with currentStream := none, currentWriter := none, currentState := none },
     [.stopped])
  | .pauseRecording =>
    match s.currentState with
    | some _ => ({ s with currentState := some AudioStreamState.paused }, [.paused])
    | none => (s, [.paused])
  | .resumeRecording =>
    match s.currentState with
    | some _ => ({ s with currentState := some AudioStreamState.recording }, [.resumed])
    | none => (s, [.resumed])
  | .refreshDevices =>
    match refresh_available_devices env.host s.currentDevice s.currentDeviceName with
    | (reg, .error e) =>
      ({ s with availableDevices := reg }, [.error ("Failed to refresh devices: " ++ e)])
    | (reg, .ok (cur, nm)) =>
      ({ s with availableDevices := reg, currentDevice := cur, currentDeviceName := nm },
       [.devicesRefreshed (create_device_list reg nm env.host)])
  | .switchDevice name =>
    if name ∈ s.availableDevices then
      ({ s with currentDevice := some name, currentDeviceName := name },
       [.deviceSwitched name])
    else
      (s, [.error ("Device " ++ name ++ " not found")])

/-- The command loop of `audio_recording_thread`: commands are dequeued in
FIFO order and each is processed to completion before the next. -/
def runLoop (s : ThreadState) : List (AudioCommand × StepEnv) → List AudioResponse
  | [] => []
  | (cmd, env) :: rest =>
    (stepThread env s cmd).2 ++ runLoop (stepThread env s cmd).1 rest

/-- The whole audio thread (audio.rs lines 74-185) applied to the queue of
commands it will receive.  Returns how many commands the thread dequeues and
the statuses it sends.  When the initial device refresh fails, the thread
sends a single error and returns without entering the command loop (audio.rs
lines 89-93), so no command is ever dequeued. -/
def audio_recording_thread (host : Host) (cmds : List (AudioCommand × StepEnv)) :
    ℕ × List AudioResponse :=
  match refresh_available_devices host none "" with
  | (_, .error e) => (0, [.error ("Failed to initialize audio devices: " ++ e)])
  | (reg, .ok (cur, nm)) =>
    (cmds.length,
     runLoop { currentStream := none, currentWriter := none, currentState := none,
               availableDevices := reg, currentDevice := cur, currentDeviceName := nm } cmds)

/-! ## WAV container configuration (audio.rs lines 261-306) -/

/-- The hound `SampleFormat` used by the WAV writer. -/
inductive SampleFormat where
  | int
  | float
  deriving DecidableEq, Repr

/-- The hound `WavSpec` struct. -/
structure WavSpec where
  channels : ℕ
  sample_rate : ℕ
  bits_per_sample : ℕ
  sample_format : SampleFormat
  deriving DecidableEq, Repr

/-- The native input configuration negotiated with the device
(`device.default_input_config()`). -/
structure DeviceConfig where
  sample_rate : ℕ
  channels : ℕ
  deriving DecidableEq, Repr

/-- The `WavSpec` that `start_recording_stream` builds (audio.rs lines
272-290): always one channel and 16-bit integer samples at the device native
sample rate; the caller-requested rate and channel count are ignored. -/
def recordingWavSpec (config : DeviceConfig) : WavSpec :=
  { channels := 1
    sample_rate := config.sample_rate
    bits_per_sample := 16
    sample_format := SampleFormat.int }

/-! ## Command-layer session bookkeeping (audio.rs lines 437-586) -/

/-- The `RecordingSession` struct of models.rs lines 51-58.  The start time is
a Utc timestamp in whole seconds. -/
structure RecordingSession where
  id : String
  card_id : String
  start_time : ℤ
  is_paused : Bool
  filename : String
  filepath : String
  deriving DecidableEq, Repr

/-- The `RecordingState` response struct of models.rs lines 302-313. -/
structure RecordingState where
  is_recording : Bool
  is_paused : Bool
  current_recording_id : Option String
  recording_start_time : Option ℤ
  elapsed_recording_time : ℤ
  deriving DecidableEq, Repr

/-- Model of the `get_recording_state` command (audio.rs lines 564-586),
with the current Utc time passed explicitly. -/
def get_recording_state (recording_state : Option RecordingSession) (now : ℤ) :
    RecordingState :=
  match recording_state with
  | some session =>
    { is_recording := true
      is_paused := session.is_paused
      current_recording_id := some session.id
      recording_start_time := some session.start_time
      elapsed_recording_time := now - session.start_time }
  | none =>
    { is_recording := false
      is_paused := false
      current_recording_id := none
      recording_start_time := none
      elapsed_recording_time := 0 }

/-- Model of the `stop_recording` command (audio.rs lines 482-511): with no
active session it returns an error and changes nothing; with an active
session it clears the session and persists the duration
`(Utc::now() - start_time).num_seconds()` (audio.rs line 496) alongside the
success message. -/
def stop_recording (recording_state : Option RecordingSession) (now : ℤ) :
    Option RecordingSession × Except String (String × ℤ) :=
  match recording_state with
  | none => (none, .error "No active recording")
  | some session =>
    (none, .ok ("Recording saved successfully", now - session.start_time))

/-- Modelled from the spec: the elapsed-time formula the specification states
for the command layer, `elapsed = paused ? accumulated_pause_snapshot :
(now - start_time) - total_paused_duration`.  The code holds no pause
snapshot or accumulated pause duration, so the formula exists only in the
spec; it is embedded here verbatim for comparison with
`get_recording_state`. -/
def elapsedSpecFormula (now : ℤ) (session : RecordingSession)
    (accumulated_pause_snapshot total_paused_duration : ℤ) : ℤ :=
  if session.is_paused then accumulated_pause_snapshot
  else (now - session.start_time) - total_paused_duration

/-- Total time spent paused, for a session whose pause history is the given
list of (pause instant, matching resume instant) intervals. -/
def totalPausedDuration (pauses : List (ℤ × ℤ)) : ℤ :=
  (pauses.map (fun p => p.2 - p.1)).sum

/-! ## Concrete instances used to witness the theorems -/

/-- A host whose enumeration succeeds but exposes no input device. -/
def hostEmpty : Host := { inputDevices := some [], defaultDevice := none }

/-- A host with a single input device that is also the default. -/
def hostMic : Host := { inputDevices := some ["Mic"], defaultDevice := some "Mic" }

/-- An environment in which every cpal call succeeds. -/
def envOk : StepEnv := { host := hostMic, attempt1 := .ok (), attempt2 := .ok () }

/-- An environment in which both stream-building attempts fail. -/
def envFail : StepEnv := { host := hostMic, attempt1 := .error "b1", attempt2 := .error "b2" }

/-- The thread state right after a successful initialization against
`hostMic`, with no active session. -/
def stateMic : ThreadState :=
  { currentStream := none, currentWriter := none, currentState := none,
    availableDevices := ["Mic"], currentDevice := some "Mic", currentDeviceName := "Mic" }

/-- A sample recording session for concrete instances. -/
def sessionA : RecordingSession :=
  { id := "id0", card_id := "card0", start_time := 0, is_paused := false,
    filename := "rec.wav", filepath := "recordings/rec.wav" }

/-- A thread state with no selected device. -/
def stateNoDev : ThreadState :=
  { currentStream := none, currentWriter := none, currentState := none,
    availableDevices := [], currentDevice := none, currentDeviceName := "" }

/-! ## Lemmas about the numeric conversions -/

lemma truncQ_eq_floor (x : ℚ) (h : 0 ≤ x) : truncQ x = ⌊x⌋ := by
  rw [truncQ, Rat.floor_def]
  exact Int.tdiv_eq_ediv (Rat.num_nonneg.mpr h) (Int.natCast_nonneg _)

lemma truncQ_neg (x : ℚ) : truncQ (-x) = -truncQ x := by
  rw [truncQ, truncQ, Rat.num_neg_eq_neg_num, Rat.den_neg_eq_den, Int.neg_tdiv]

lemma truncQ_eq_ceil (x : ℚ) (h : x ≤ 0) : truncQ x = ⌈x⌉ := by
  have h2 : truncQ (-x) = ⌊-x⌋ := truncQ_eq_floor (-x) (by linarith)
  rw [truncQ_neg, Int.floor_neg] at h2
  omega

lemma clampQ_mem (x : ℚ) : -1 ≤ clampQ x ∧ clampQ x ≤ 1 :=
  ⟨le_max_left _ _, max_le (by norm_num) (min_le_left _ _)⟩

lemma truncQ_bounds (x : ℚ) (hl : -32767 ≤ x) (hr : x ≤ 32767) :
    -32767 ≤ truncQ x ∧ truncQ x ≤ 32767 := by
  rcases le_or_lt 0 x with h | h
  · rw [truncQ_eq_floor x h]
    constructor
    · have h1 : (0 : ℤ) ≤ ⌊x⌋ := Int.floor_nonneg.mpr h
      omega
    · have h1 : ⌊x⌋ ≤ ⌊(32767 : ℚ)⌋ := Int.floor_le_floor hr
      simpa using h1
  · rw [truncQ_eq_ceil x h.le]
    constructor
    · have h1 : ⌈((-32767 : ℤ) : ℚ)⌉ ≤ ⌈x⌉ := Int.ceil_le_ceil (by push_cast; linarith)
      simpa using h1
    · have h2 : ⌈x⌉ ≤ (0 : ℤ) := Int.ceil_le.mpr (by push_cast; linarith)
      omega

lemma f32ToI16_bounds (s : ℚ) : -32767 ≤ f32ToI16 s ∧ f32ToI16 s ≤ 32767 := by
  obtain ⟨h1, h2⟩ := clampQ_mem s
  have hb := truncQ_bounds (clampQ s * 32767) (by nlinarith) (by nlinarith)
  rw [f32ToI16, f32AsI16Sat]
  omega

lemma f32ToI16_no_sat (s : ℚ) : f32ToI16 s = truncQ (clampQ s * 32767) := by
  have hb := truncQ_bounds (clampQ s * 32767)
    (by obtain ⟨h1, h2⟩ := clampQ_mem s; nlinarith)
    (by obtain ⟨h1, h2⟩ := clampQ_mem s; nlinarith)
  rw [f32ToI16, f32AsI16Sat]
  omega

/-! ## Lemmas about frame chunking and buffer processing -/

lemma chunkFramesAux_length {α : Type} (inCh : ℕ) (h : 0 < inCh) :
    ∀ fuel (data : List α), data.length ≤ fuel →
      (chunkFramesAux inCh fuel data).length = data.length / inCh := by
  intro fuel
  induction fuel with
  | zero =>
    intro data hlen
    have h0 : data.length = 0 := Nat.le_zero.mp hlen
    simp [chunkFramesAux, h0]
  | succ n ih =>
    intro data hlen
    by_cases hle : inCh ≤ data.length
    · simp only [chunkFramesAux, hle, if_true, List.length_cons]
      rw [ih (data.drop inCh) (by simp [List.length_drop]; omega)]
      simp only [List.length_drop]
      conv_rhs => rw [Nat.div_eq_sub_div h hle]
    · have hlt : data.length < inCh := Nat.lt_of_not_le hle
      simp [chunkFramesAux, hle, Nat.div_eq_of_lt hlt]

lemma chunkFrames_length {α : Type} (inCh : ℕ) (h : 0 < inCh) (data : List α) :
    (chunkFrames inCh data).length = data.length / inCh :=
  chunkFramesAux_length inCh h data.length data le_rfl

lemma chunkFramesAux_mem_length {α : Type} (inCh : ℕ) :
    ∀ fuel (data : List α) frame, frame ∈ chunkFramesAux inCh fuel data →
      frame.length = inCh := by
  intro fuel
  induction fuel with
  | zero =>
    intro data frame hf
    simp [chunkFramesAux] at hf
  | succ n ih =>
    intro data frame hf
    by_cases hle : inCh ≤ data.length
    · simp only [chunkFramesAux, hle, if_true, List.mem_cons] at hf
      rcases hf with hf | hf
      · subst hf
        rw [List.length_take]
        omega
      · exact ih _ _ hf
    · simp [chunkFramesAux, hle] at hf

lemma chunkFrames_mem_length {α : Type} (inCh : ℕ) (data : List α) (frame : List α)
    (hf : frame ∈ chunkFrames inCh data) : frame.length = inCh :=
  chunkFramesAux_mem_length inCh data.length data frame hf

lemma processBufferF32_length (inCh : ℕ) (h : 1 ≤ inCh) (data : List ℚ) :
    (processBufferF32 inCh data).length = data.length / inCh := by
  rw [processBufferF32]
  by_cases h1 : inCh ≤ 1
  · have he : inCh = 1 := le_antisymm h1 h
    simp [he]
  · simp only [h1, if_false, List.length_map]
    exact chunkFrames_length inCh (by omega) data

lemma processBufferF32_mem_bounds (inCh : ℕ) (data : List ℚ) :
    ∀ z ∈ processBufferF32 inCh data, -32767 ≤ z ∧ z ≤ 32767 := by
  intro z hz
  rw [processBufferF32] at hz
  split at hz
  · obtain ⟨a, _, rfl⟩ := List.mem_map.mp hz
    exact f32ToI16_bounds a
  · obtain ⟨frame, _, rfl⟩ := List.mem_map.mp hz
    exact f32ToI16_bounds _

/-! ## Lemmas about session traces -/

lemma foldl_buffers_recording (inCh : ℕ) (bufs : List (List ℚ)) :
    ∀ acc, (bufs.map CallbackEvent.buffer).foldl (sessionStep inCh)
        (AudioStreamState.recording, acc)
      = (AudioStreamState.recording, acc ++ bufs.flatMap (processBufferF32 inCh)) := by
  induction bufs with
  | nil =>
    intro acc
    simp
  | cons b bs ih =>
    intro acc
    simp only [List.map_cons, List.foldl_cons, sessionStep]
    rw [ih]
    simp

lemma foldl_buffers_paused (inCh : ℕ) (bufs : List (List ℚ)) :
    ∀ acc, (bufs.map CallbackEvent.buffer).foldl (sessionStep inCh)
        (AudioStreamState.paused, acc)
      = (AudioStreamState.paused, acc) := by
  induction bufs with
  | nil =>
    intro acc
    simp
  | cons b bs ih =>
    intro acc
    simp only [List.map_cons, List.foldl_cons, sessionStep]
    exact ih acc

/-! ## Lemmas about the audio thread -/

lemma stepThread_responses_length (env : StepEnv) (s : ThreadState) (cmd : AudioCommand) :
    ((stepThread env s cmd).2).length = 1 := by
  cases cmd <;>
    · unfold stepThread
      repeat' split
      all_goals simp

lemma runLoop_length (cmds : List (AudioCommand × StepEnv)) :
    ∀ s, (runLoop s cmds).length = cmds.length := by
  induction cmds with
  | nil =>
    intro s
    simp [runLoop]
  | cons ce rest ih =>
    intro s
    obtain ⟨cmd, env⟩ := ce
    simp [runLoop, ih, stepThread_responses_length]
    omega

/-! ## Claim theorems -/

/-- Claim C1: on an active session, a buffer arriving while the shared state
is Paused is dropped and a buffer arriving while it is Recording is appended;
consequently after Start, N buffers, Pause, M buffers, Resume, K buffers,
Stop, the finalized file holds exactly the samples of the N and K buffers. -/
theorem pause_drops_buffers (inCh : ℕ) (ns ms ks : List (List ℚ)) :
    finalizeFile (runSession inCh
        (ns.map CallbackEvent.buffer ++ [CallbackEvent.pauseCmd]
          ++ ms.map CallbackEvent.buffer ++ [CallbackEvent.resumeCmd]
          ++ ks.map CallbackEvent.buffer))
      = ns.flatMap (processBufferF32 inCh) ++ ks.flatMap (processBufferF32 inCh) ∧
    (∀ written data, sessionStep inCh (AudioStreamState.paused, written)
        (CallbackEvent.buffer data) = (AudioStreamState.paused, written)) ∧
    (∀ written data, sessionStep inCh (AudioStreamState.recording, written)
        (CallbackEvent.buffer data)
      = (AudioStreamState.recording, written ++ processBufferF32 inCh data)) := by
  refine ⟨?_, fun written data => rfl, fun written data => rfl⟩
  rw [runSession]
  simp only [List.foldl_append, List.foldl_cons, List.foldl_nil]
  rw [foldl_buffers_recording]
  simp only [List.nil_append]
  have hp : sessionStep inCh (AudioStreamState.recording, ns.flatMap (processBufferF32 inCh))
      CallbackEvent.pauseCmd
      = (AudioStreamState.paused, ns.flatMap (processBufferF32 inCh)) := rfl
  rw [hp, foldl_buffers_paused]
  have hr : sessionStep inCh (AudioStreamState.paused, ns.flatMap (processBufferF32 inCh))
      CallbackEvent.resumeCmd
      = (AudioStreamState.recording, ns.flatMap (processBufferF32 inCh)) := rfl
  rw [hr, foldl_buffers_recording]
  rfl

/-- Claim C2: for channel counts greater than one, the f32 pipeline emits one
mono sample per complete frame, namely the 16-bit conversion of the frame's
arithmetic mean; a stereo frame with left 1.0 and right -1.0 yields the mono
sample 0. -/
theorem downmix_mean (inCh : ℕ) (h : 1 < inCh) (data : List ℚ) :
    processBufferF32 inCh data
      = (chunkFrames inCh data).map (fun frame => f32ToI16 (meanQ frame)) ∧
    (∀ frame ∈ chunkFrames inCh data, frame.length = inCh) ∧
    processBufferF32 2 [1, -1] = [0] := by
  refine ⟨?_, fun frame hf => chunkFrames_mem_length inCh data frame hf, ?_⟩
  · rw [processBufferF32]
    have hn : ¬ inCh ≤ 1 := by omega
    simp only [hn, if_false]
    apply List.map_congr_left
    intro frame hf
    rw [meanQ, chunkFrames_mem_length inCh data frame hf]
  · have h2 : chunkFrames 2 ([1, -1] : List ℚ) = [[1, -1]] := rfl
    have hn2 : ¬ (2 : ℕ) ≤ 1 := by norm_num
    rw [processBufferF32]
    simp only [hn2, if_false, h2, List.map_cons, List.map_nil, List.sum_cons, List.sum_nil]
    have hx : ((1 : ℚ) + (-1 + 0)) / (2 : ℕ) = 0 := by norm_num
    rw [hx]
    have h0 : f32ToI16 0 = 0 := by norm_num [f32ToI16, clampQ, f32AsI16Sat, truncQ]
    rw [h0]

/-- Claim C3: every f32 sample is clamped to the unit range before being
scaled by 32767 and truncated, so the conversion never saturates further nor
wraps, stays within the 16-bit range, and maps the out-of-range input 1.5 to
the maximum value 32767; every u16 sample has the midpoint bias 32768
subtracted, and the subsequent i16 cast never wraps. -/
theorem clamp_and_bias (x : ℚ) (u : ℕ) (hu : u < 65536) :
    f32ToI16 x = truncQ (clampQ x * 32767) ∧
    (-32767 ≤ f32ToI16 x ∧ f32ToI16 x ≤ 32767) ∧
    f32ToI16 (3 / 2) = 32767 ∧
    u16SampleToI16 u = (u : ℤ) - 32768 ∧
    (-32768 ≤ u16SampleToI16 u ∧ u16SampleToI16 u ≤ 32767) := by
  refine ⟨f32ToI16_no_sat x, f32ToI16_bounds x, ?_, ?_, ?_⟩
  · have hc : clampQ (3 / 2) = 1 := by
      rw [clampQ]
      norm_num
    rw [f32ToI16, hc]
    norm_num [f32AsI16Sat, truncQ]
  · rw [u16SampleToI16, i32AsI16]
    omega
  · rw [u16SampleToI16, i32AsI16]
    constructor <;> omega

/-- Witness for C3 at the concrete inputs x = 1/2 and u = 40000. -/
theorem clamp_and_bias_witness :
    f32ToI16 (1 / 2) = truncQ (clampQ (1 / 2) * 32767) ∧
    (-32767 ≤ f32ToI16 (1 / 2) ∧ f32ToI16 (1 / 2) ≤ 32767) ∧
    f32ToI16 (3 / 2) = 32767 ∧
    u16SampleToI16 40000 = (40000 : ℤ) - 32768 ∧
    (-32768 ≤ u16SampleToI16 40000 ∧ u16SampleToI16 40000 ≤ 32767) :=
  clamp_and_bias (1 / 2) 40000 (by decide)

/-- Witness for C2 at the concrete stereo buffer with left 1.0 and
right -1.0. -/
theorem downmix_mean_witness :
    processBufferF32 2 [1, -1]
      = (chunkFrames 2 [1, -1]).map (fun frame => f32ToI16 (meanQ frame)) ∧
    (∀ frame ∈ chunkFrames 2 ([1, -1] : List ℚ), frame.length = 2) ∧
    processBufferF32 2 [1, -1] = [0] :=
  downmix_mean 2 (by decide) [1, -1]

/-- Claim C4: every dequeued command causes exactly one terminal status to be
sent, and it is sent before the next command is dequeued. -/
theorem one_response_per_command (env : StepEnv) (s : ThreadState) (cmd : AudioCommand)
    (rest : List (AudioCommand × StepEnv)) :
    ((stepThread env s cmd).2).length = 1 ∧
    runLoop s ((cmd, env) :: rest)
      = (stepThread env s cmd).2 ++ runLoop (stepThread env s cmd).1 rest :=
  ⟨stepThread_responses_length env s cmd, rfl⟩

/-- Counterexample to claim C5: when device initialization fails at thread
startup, the thread exits after one error status and consumes none of the
enqueued commands, so an enqueued command gets no Error reply. -/
theorem init_failure_counterexample :
    (audio_recording_thread hostEmpty [(AudioCommand.stopRecording, envOk)]).1 = 0 ∧
    [(AudioCommand.stopRecording, envOk)].length = 1 ∧
    (audio_recording_thread hostEmpty [(AudioCommand.stopRecording, envOk)]).1
      ≠ [(AudioCommand.stopRecording, envOk)].length := by
  have h1 : (audio_recording_thread hostEmpty [(AudioCommand.stopRecording, envOk)]).1 = 0 :=
    rfl
  refine ⟨h1, rfl, ?_⟩
  rw [h1]
  decide

/-- Claim C5 as amended: if device initialization fails at thread startup the
thread emits a single Error and exits without dequeuing any command; once
initialization succeeds, every enqueued command is dequeued and answered with
exactly one status, and StartRecording with no selected device is answered
with an Error while the thread keeps running. -/
theorem thread_init_failure_exits (host : Host) (cmds : List (AudioCommand × StepEnv)) :
    (∀ e, (refresh_available_devices host none "").2 = Except.error e →
        audio_recording_thread host cmds
          = (0, [AudioResponse.error ("Failed to initialize audio devices: " ++ e)])) ∧
    (∀ cur nm, (refresh_available_devices host none "").2 = Except.ok (cur, nm) →
        (audio_recording_thread host cmds).1 = cmds.length ∧
        ((audio_recording_thread host cmds).2).length = cmds.length) ∧
    (∀ env s filepath sample_rate channels, s.currentDevice = none →
        stepThread env s (AudioCommand.startRecording filepath sample_rate channels)
          = (s, [AudioResponse.error "No audio device available"])) := by
  refine ⟨?_, ?_, ?_⟩
  · intro e he
    rcases hr : refresh_available_devices host none "" with ⟨reg, r⟩
    rw [hr] at he
    simp only at he
    subst he
    unfold audio_recording_thread
    rw [hr]
  · intro cur nm hok
    rcases hr : refresh_available_devices host none "" with ⟨reg, r⟩
    rw [hr] at hok
    simp only at hok
    subst hok
    unfold audio_recording_thread
    rw [hr]
    exact ⟨rfl, runLoop_length cmds _⟩
  · intro env s filepath sample_rate channels hdev
    unfold stepThread
    rw [hdev]

/-- Witness for the amended C5, covering the failing-initialization branch,
the successful-initialization branch, and the no-device StartRecording
branch at concrete inputs. -/
theorem thread_init_failure_exits_witness :
    audio_recording_thread hostEmpty []
      = (0, [AudioResponse.error
              ("Failed to initialize audio devices: " ++ "No input devices available")]) ∧
    ((audio_recording_thread hostMic [(AudioCommand.stopRecording, envOk)]).1
        = [(AudioCommand.stopRecording, envOk)].length ∧
     ((audio_recording_thread hostMic [(AudioCommand.stopRecording, envOk)]).2).length
        = [(AudioCommand.stopRecording, envOk)].length) ∧
    stepThread envOk stateNoDev (AudioCommand.startRecording "f.wav" 44100 1)
      = (stateNoDev, [AudioResponse.error "No audio device available"]) :=
  ⟨(thread_init_failure_exits hostEmpty []).1 "No input devices available" rfl,
   (thread_init_failure_exits hostMic [(AudioCommand.stopRecording, envOk)]).2.1
     (some "Mic") "Mic" rfl,
   (thread_init_failure_exits hostMic []).2.2 envOk stateNoDev "f.wav" 44100 1 rfl⟩

/-- Counterexample to claim C6: the code reports elapsed time as
now - start_time, which differs from the formula of the claim on a session
that spent 4 seconds paused (paused from t=2 to t=6, read at t=10). -/
theorem elapsed_excludes_pause_counterexample :
    (get_recording_state (some sessionA) 10).elapsed_recording_time
      ≠ elapsedSpecFormula 10 sessionA 0 (totalPausedDuration [(2, 6)]) := by
  decide

/-- Claim C6 as amended: the elapsed time reported by get_recording_state is
always now - start_time, independent of the pause flag, and stop_recording
persists the same now - start_time as the duration; time spent paused is not
excluded anywhere. -/
theorem elapsed_ignores_pause (now : ℤ) (session : RecordingSession) :
    (get_recording_state (some session) now).elapsed_recording_time
      = now - session.start_time ∧
    (∀ b : Bool,
      (get_recording_state (some { session with is_paused := b }) now).elapsed_recording_time
        = now - session.start_time) ∧
    (stop_recording (some session) now).2
      = Except.ok ("Recording saved successfully", now - session.start_time) :=
  ⟨rfl, fun _ => rfl, rfl⟩

/-- Claim C7: when the first stream-opening attempt of StartRecording fails,
the thread refreshes devices and retries exactly once: if the retry fails the
single emitted Error concatenates both failure reasons, if it succeeds
Started is emitted, and if the refresh itself fails the Error carries the
original reason with no second refresh or retry. -/
theorem start_retry_once (env : StepEnv) (s : ThreadState)
    (filepath : String) (sample_rate channels : ℕ) (d e : String)
    (hdev : s.currentDevice = some d) (h1 : env.attempt1 = Except.error e) :
    (∀ reg cur nm,
        refresh_available_devices env.host s.currentDevice s.currentDeviceName
          = (reg, Except.ok (cur, nm)) →
        ∀ d2, cur = some d2 →
          (env.attempt2 = Except.ok () →
            (stepThread env s (AudioCommand.startRecording filepath sample_rate channels)).2
              = [AudioResponse.started]) ∧
          (∀ e2, env.attempt2 = Except.error e2 →
            (stepThread env s (AudioCommand.startRecording filepath sample_rate channels)).2
              = [AudioResponse.error
                  ("Audio start failed: " ++ e ++ " (retry: " ++ e2 ++ ")")])) ∧
    (∀ reg e3,
        refresh_available_devices env.host s.currentDevice s.currentDeviceName
          = (reg, Except.error e3) →
        (stepThread env s (AudioCommand.startRecording filepath sample_rate channels)).2
          = [AudioResponse.error ("Audio start failed: " ++ e)]) := by
  constructor
  · intro reg cur nm hr d2 hcur
    subst hcur
    rw [hdev] at hr
    constructor
    · intro h2
      simp only [stepThread, hdev, h1, hr, h2]
    · intro e2 he2
      simp only [stepThread, hdev, h1, hr, he2]
  · intro reg e3 hr
    rw [hdev] at hr
    simp only [stepThread, hdev, h1, hr]

/-- Witness for C7 at a concrete environment in which both attempts fail with
reasons b1 and b2 and the refresh succeeds. -/
theorem start_retry_once_witness :
    (stepThread envFail stateMic (AudioCommand.startRecording "f.wav" 44100 1)).2
      = [AudioResponse.error ("Audio start failed: " ++ "b1" ++ " (retry: " ++ "b2" ++ ")")] :=
  ((start_retry_once envFail stateMic "f.wav" 44100 1 "Mic" "b1" rfl rfl).1
      ["Mic"] (some "Mic") "Mic" rfl "Mic" rfl).2 "b2" rfl

/-- Claim C8: the WAV header always declares one channel, 16 bits per sample
and the device native sample rate, and the f32 pipeline writes exactly one
16-bit-range sample per complete input frame, so the declared layout matches
the written layout. -/
theorem wav_spec_matches_layout (config : DeviceConfig) (data : List ℚ)
    (h : 1 ≤ config.channels) :
    (recordingWavSpec config).channels = 1 ∧
    (recordingWavSpec config).bits_per_sample = 16 ∧
    (recordingWavSpec config).sample_format = SampleFormat.int ∧
    (recordingWavSpec config).sample_rate = config.sample_rate ∧
    (processBufferF32 config.channels data).length = data.length / config.channels ∧
    ∀ z ∈ processBufferF32 config.channels data, -32768 ≤ z ∧ z ≤ 32767 := by
  refine ⟨rfl, rfl, rfl, rfl, processBufferF32_length _ h data, ?_⟩
  intro z hz
  obtain ⟨hb1, hb2⟩ := processBufferF32_mem_bounds _ data z hz
  omega

/-- Witness for C8 on a stereo device at 48 kHz with a buffer of three
samples (one complete frame plus a trailing incomplete frame). -/
theorem wav_spec_matches_layout_witness :
    (recordingWavSpec ⟨48000, 2⟩).channels = 1 ∧
    (recordingWavSpec ⟨48000, 2⟩).bits_per_sample = 16 ∧
    (recordingWavSpec ⟨48000, 2⟩).sample_format = SampleFormat.int ∧
    (recordingWavSpec ⟨48000, 2⟩).sample_rate = (⟨48000, 2⟩ : DeviceConfig).sample_rate ∧
    (processBufferF32 (⟨48000, 2⟩ : DeviceConfig).channels [1, -1, 1]).length
      = ([1, -1, 1] : List ℚ).length / (⟨48000, 2⟩ : DeviceConfig).channels ∧
    ∀ z ∈ processBufferF32 (⟨48000, 2⟩ : DeviceConfig).channels ([1, -1, 1] : List ℚ),
      -32768 ≤ z ∧ z ≤ 32767 :=
  wav_spec_matches_layout ⟨48000, 2⟩ [1, -1, 1] (by decide)

/-- Claim C9: StopRecording with no active session leaves the thread state
unchanged and reports Stopped, and the stop_recording command with no active
session returns an error without mutating the session slot. -/
theorem stop_idempotent (env : StepEnv) (s : ThreadState) (now : ℤ)
    (h1 : s.currentStream = none) (h2 : s.currentWriter = none)
    (h3 : s.currentState = none) :
    stepThread env s AudioCommand.stopRecording = (s, [AudioResponse.stopped]) ∧
    stop_recording none now = (none, Except.error "No active recording") := by
  refine ⟨?_, rfl⟩
  cases s
  simp only [stepThread]
  simp_all

/-- Witness for C9 at the idle post-initialization thread state. -/
theorem stop_idempotent_witness :
    stepThread envOk stateMic AudioCommand.stopRecording = (stateMic, [AudioResponse.stopped]) ∧
    stop_recording none 0 = (none, Except.error "No active recording") :=
  stop_idempotent envOk stateMic 0 rfl rfl rfl

/-- Claim C10: PauseRecording and ResumeRecording dequeued with no active
session change nothing and still emit the success statuses Paused and
Resumed, never an Error. -/
theorem pause_resume_without_session (env : StepEnv) (s : ThreadState)
    (h : s.currentState = none) :
    stepThread env s AudioCommand.pauseRecording = (s, [AudioResponse.paused]) ∧
    stepThread env s AudioCommand.resumeRecording = (s, [AudioResponse.resumed]) := by
  constructor <;> simp only [stepThread, h]

/-- Witness for C10 at the idle post-initialization thread state. -/
theorem pause_resume_without_session_witness :
    stepThread envOk stateMic AudioCommand.pauseRecording
      = (stateMic, [AudioResponse.paused]) ∧
    stepThread envOk stateMic AudioCommand.resumeRecording
      = (stateMic, [AudioResponse.resumed]) :=
  pause_resume_without_session envOk stateMic rfl

end Audio
